import Mathlib

/-!  Verification of the lexical retrieval index (`RAGDemo`) of
`04-code-examples/python/genai_demo.py`: TF-IDF vectorization
(`TfidfVectorizer(stop_words='english')`, all other parameters default)
and cosine-similarity ranking via `argsort()[-top_k:][::-1]`.  -/

namespace RAG

/-- sklearn's fixed `ENGLISH_STOP_WORDS` list, used by
`TfidfVectorizer(stop_words='english')`. -/
def englishStopWords : List String :=
  ["a", "about", "above", "across", "after", "afterwards", "again", "against",
   "all", "almost", "alone", "along", "already", "also", "although", "always",
   "am", "among", "amongst", "amoungst", "amount", "an", "and", "another",
   "any", "anyhow", "anyone", "anything", "anyway", "anywhere", "are",
   "around", "as", "at", "back", "be", "became", "because", "become",
   "becomes", "becoming", "been", "before", "beforehand", "behind", "being",
   "below", "beside", "besides", "between", "beyond", "bill", "both",
   "bottom", "but", "by", "call", "can", "cannot", "cant", "co", "con",
   "could", "couldnt", "cry", "de", "describe", "detail", "do", "done",
   "down", "due", "during", "each", "eg", "eight", "either", "eleven",
   "else", "elsewhere", "empty", "enough", "etc", "even", "ever", "every",
   "everyone", "everything", "everywhere", "except", "few", "fifteen",
   "fifty", "fill", "find", "fire", "first", "five", "for", "former",
   "formerly", "forty", "found", "four", "from", "front", "full", "further",
   "get", "give", "go", "had", "has", "hasnt", "have", "he", "hence", "her",
   "here", "hereafter", "hereby", "herein", "hereupon", "hers", "herself",
   "him", "himself", "his", "how", "however", "hundred", "i", "ie", "if",
   "in", "inc", "indeed", "interest", "into", "is", "it", "its", "itself",
   "keep", "last", "latter", "latterly", "least", "less", "ltd", "made",
   "many", "may", "me", "meanwhile", "might", "mill", "mine", "more",
   "moreover", "most", "mostly", "move", "much", "must", "my", "myself",
   "name", "namely", "neither", "never", "nevertheless", "next", "nine",
   "no", "nobody", "none", "noone", "nor", "not", "nothing", "now",
   "nowhere", "of", "off", "often", "on", "once", "one", "only", "onto",
   "or", "other", "others", "otherwise", "our", "ours", "ourselves", "out",
   "over", "own", "part", "per", "perhaps", "please", "put", "rather", "re",
   "same", "see", "seem", "seemed", "seeming", "seems", "serious",
   "several", "she", "should", "show", "side", "since", "sincere", "six",
   "sixty", "so", "some", "somehow", "someone", "something", "sometime",
   "sometimes", "somewhere", "still", "such", "system", "take", "ten",
   "than", "that", "the", "their", "them", "themselves", "then", "thence",
   "there", "thereafter", "thereby", "therefore", "therein", "thereupon",
   "these", "they", "thick", "thin", "third", "this", "those", "though",
   "three", "through", "throughout", "thru", "thus", "to", "together",
   "too", "top", "toward", "towards", "twelve", "twenty", "two", "un",
   "under", "until", "up", "upon", "us", "very", "via", "was", "we", "well",
   "were", "what", "whatever", "when", "whence", "whenever", "where",
   "whereafter", "whereas", "whereby", "wherein", "whereupon", "wherever",
   "whether", "which", "while", "whither", "who", "whoever", "whole",
   "whom", "whose", "why", "will", "with", "within", "without", "would",
   "yet", "you", "your", "yours", "yourself", "yourselves"]

/-- Word characters of the default token pattern (ASCII fragment of `\w`). -/
def isWordChar (c : Char) : Bool := c.isAlphanum || c == '_'

/-- The default analyzer's tokenization: lowercase, then keep the maximal
runs of word characters of length at least two (token pattern `\w\w+`
between word boundaries). -/
def tokenize (s : String) : List String :=
  (((s.toList.map Char.toLower).splitOnP (fun c => !isWordChar c)).filter
    (fun l => 2 ≤ l.length)).map (fun l => String.mk l)

/-- Tokens of a text after stop-word removal (the full analyzer). -/
def analyze (s : String) : List String :=
  (tokenize s).filter (fun t => !englishStopWords.contains t)

def analyzeDocs (docs : List String) : List (List String) :=
  docs.map analyze

/-- The fitted vectorizer state (`fit_transform`): the analyzed corpus.
Vocabulary, document frequencies, IDF weights and the stored document
vectors are all derived from it. -/
structure FittedModel where
  docTokens : List (List String)
deriving DecidableEq

def fitModel (docs : List String) : FittedModel := ⟨analyzeDocs docs⟩

/-- Number of documents of the fitted corpus. -/
def FittedModel.n (m : FittedModel) : ℕ := m.docTokens.length

/-- Vocabulary: the distinct terms of the analyzed corpus (the order is
irrelevant: every quantity below is a sum over the vocabulary). -/
def FittedModel.vocab (m : FittedModel) : List String := m.docTokens.flatten.dedup

/-- Document frequency of a term. -/
def FittedModel.df (m : FittedModel) (t : String) : ℕ :=
  (m.docTokens.filter (fun d => d.contains t)).length

/-- Smoothed inverse document frequency, sklearn's default
`smooth_idf=True` formula. -/
noncomputable def FittedModel.idf (m : FittedModel) (t : String) : ℝ :=
  Real.log ((1 + (m.n : ℝ)) / (1 + (m.df t : ℝ))) + 1

/-- TF-IDF weight of term `t` for a token list (raw term count times IDF;
the `l2` row normalization cancels inside cosine similarity below). -/
noncomputable def FittedModel.weight (m : FittedModel) (toks : List String) (t : String) : ℝ :=
  (toks.count t : ℝ) * m.idf t

noncomputable def FittedModel.dot (m : FittedModel) (xs ys : List String) : ℝ :=
  (m.vocab.map (fun t => m.weight xs t * m.weight ys t)).sum

noncomputable def FittedModel.sqNorm (m : FittedModel) (xs : List String) : ℝ :=
  (m.vocab.map (fun t => m.weight xs t ^ 2)).sum

/-- Cosine similarity of two token lists over the vocabulary; zero when
either vector has zero norm (sklearn's `normalize` leaves zero rows
zero, so `cosine_similarity` never divides by zero). -/
noncomputable def FittedModel.sim (m : FittedModel) (xs ys : List String) : ℝ :=
  if m.sqNorm xs = 0 ∨ m.sqNorm ys = 0 then 0
  else m.dot xs ys / (Real.sqrt (m.sqNorm xs) * Real.sqrt (m.sqNorm ys))

/-- The flattened row `cosine_similarity(query_vector, document_vectors)`. -/
noncomputable def FittedModel.similarities (m : FittedModel) (query : String) : List ℝ :=
  m.docTokens.map (fun d => m.sim (analyze query) d)

/-- Comparison used to model `argsort`: ascending value, ties by ascending
position.  numpy's default quicksort argsort guarantees only the ascending
value order; its tie order is stable (insertion sort) solely on small
partitions (two-element arrays in particular) and is undocumented on larger
tied arrays.  Accordingly, every theorem below about the ranking either is
invariant under WHICH value-sorting permutation is chosen, or concerns a
corpus of at most two documents, where this model provably coincides with
numpy. -/
def argRel (sims : List ℝ) (i j : ℕ) : Prop :=
  sims.getD i 0 < sims.getD j 0 ∨ (sims.getD i 0 = sims.getD j 0 ∧ i ≤ j)

noncomputable instance argRel.decRel (sims : List ℝ) : DecidableRel (argRel sims) :=
  fun _ _ => inferInstanceAs (Decidable (_ ∨ _))

instance argRel.isTotal (sims : List ℝ) : IsTotal ℕ (argRel sims) where
  total i j := by
    rcases lt_trichotomy (sims.getD i 0) (sims.getD j 0) with h | h | h
    · exact Or.inl (Or.inl h)
    · rcases Nat.le_total i j with hij | hij
      · exact Or.inl (Or.inr ⟨h, hij⟩)
      · exact Or.inr (Or.inr ⟨h.symm, hij⟩)
    · exact Or.inr (Or.inl h)

instance argRel.isTrans (sims : List ℝ) : IsTrans ℕ (argRel sims) where
  trans i j k hij hjk := by
    rcases hij with h₁ | ⟨h₁, h₁'⟩ <;> rcases hjk with h₂ | ⟨h₂, h₂'⟩
    · exact Or.inl (h₁.trans h₂)
    · exact Or.inl (h₂ ▸ h₁)
    · exact Or.inl (h₁ ▸ h₂)
    · exact Or.inr ⟨h₁.trans h₂, h₁'.trans h₂'⟩

/-- `similarities.argsort()`: the permutation of `[0, …, n-1]` sorting the
similarity values in ascending order. -/
noncomputable def argsort (sims : List ℝ) : List ℕ :=
  List.insertionSort (argRel sims) (List.range sims.length)

/-- Python slice `l[-k:]`; `l[-0:]` is the whole list. -/
def lastSlice {α : Type} (l : List α) (k : ℕ) : List α :=
  if k = 0 then l else l.drop (l.length - k)

/-- `similarities.argsort()[-top_k:][::-1]`. -/
noncomputable def topIndices (sims : List ℝ) (k : ℕ) : List ℕ :=
  (lastSlice (argsort sims) k).reverse

/-- One entry of the result list of `search_documents`. -/
structure SearchResult where
  document : String
  similarity_score : ℝ
  rank : ℕ

/-- The result-building loop: rank is `len(results) + 1`, i.e. one plus the
position in the output.  (`self.documents[idx]` is modelled with a default;
every index produced by `topIndices` on an in-sync state is in range.) -/
noncomputable def buildResults (docs : List String) (sims : List ℝ) (idxs : List ℕ) :
    List SearchResult :=
  idxs.enum.map (fun p => ⟨docs.getD p.2 "", sims.getD p.2 0, p.1 + 1⟩)

/-- The mutable state of a `RAGDemo` instance: `self.documents`, and the
fitted vectorizer together with `self.document_vectors` (present only
after a successful `fit_transform`). -/
structure RAGState where
  documents : List String
  fitted : Option FittedModel
deriving DecidableEq

/-- `__init__`. -/
def initState : RAGState := ⟨[], none⟩

def vocabOfDocs (docs : List String) : List String := (fitModel docs).vocab

/-- `add_documents`: `self.documents` is assigned first; `fit_transform`
raises `ValueError` when the corpus yields an empty vocabulary (no
documents, or only stop words and single-letter tokens), in which case the
previously fitted model, if any, survives. -/
def add_documents (st : RAGState) (docs : List String) : RAGState × Except String Unit :=
  if vocabOfDocs docs = [] then
    (⟨docs, st.fitted⟩,
      Except.error "empty vocabulary; perhaps the documents only contain stop words")
  else
    (⟨docs, some (fitModel docs)⟩, Except.ok ())

/-- The state of a fresh instance after one `add_documents` call. -/
def loadState (docs : List String) : RAGState := (add_documents initState docs).1

/-- `search_documents`: empty document list short-circuits to `[]`;
querying a never-fitted vectorizer raises `NotFittedError`. -/
noncomputable def search_documents (st : RAGState) (query : String) (top_k : ℕ) :
    Except String (List SearchResult) :=
  if st.documents = [] then Except.ok []
  else
    match st.fitted with
    | none => Except.error "NotFittedError"
    | some m =>
        Except.ok (buildResults st.documents (m.similarities query)
          (topIndices (m.similarities query) top_k))

/-- The demo corpus of `main()`. -/
def demoDocs : List String :=
  ["AI is transforming healthcare through improved diagnosis.",
   "Machine learning predicts equipment failures in manufacturing.",
   "AI chatbots revolutionize customer service."]

/-- The demo query of `main()`. -/
def demoQuery : String := "How is AI improving healthcare?"

/-! ## Structural lemmas about the ranking pipeline -/

theorem argsort_perm (sims : List ℝ) : List.Perm (argsort sims) (List.range sims.length) :=
  List.perm_insertionSort _ _

theorem argsort_length (sims : List ℝ) : (argsort sims).length = sims.length := by
  rw [(argsort_perm sims).length_eq, List.length_range]

theorem argsort_nodup (sims : List ℝ) : (argsort sims).Nodup :=
  (argsort_perm sims).nodup_iff.2 (List.nodup_range _)

theorem argsort_sorted (sims : List ℝ) : List.Sorted (argRel sims) (argsort sims) :=
  List.sorted_insertionSort _ _

theorem mem_argsort_lt {sims : List ℝ} {i : ℕ} (h : i ∈ argsort sims) : i < sims.length := by
  simpa [List.mem_range] using (argsort_perm sims).mem_iff.1 h

theorem lastSlice_sublist {α : Type} (l : List α) (k : ℕ) : (lastSlice l k).Sublist l := by
  unfold lastSlice
  split
  · exact List.Sublist.refl l
  · exact List.drop_sublist _ l

theorem lastSlice_length_pos {α : Type} (l : List α) {k : ℕ} (hk : k ≠ 0) :
    (lastSlice l k).length = min k l.length := by
  unfold lastSlice
  rw [if_neg hk, List.length_drop]
  omega

theorem lastSlice_zero {α : Type} (l : List α) : lastSlice l 0 = l := rfl

theorem topIndices_length_pos (sims : List ℝ) {k : ℕ} (hk : k ≠ 0) :
    (topIndices sims k).length = min k sims.length := by
  unfold topIndices
  rw [List.length_reverse, lastSlice_length_pos _ hk, argsort_length]

theorem topIndices_length_zero (sims : List ℝ) :
    (topIndices sims 0).length = sims.length := by
  unfold topIndices
  rw [List.length_reverse, lastSlice_zero, argsort_length]

theorem topIndices_nodup (sims : List ℝ) (k : ℕ) : (topIndices sims k).Nodup := by
  unfold topIndices
  rw [List.nodup_reverse]
  exact (argsort_nodup sims).sublist (lastSlice_sublist _ k)

theorem mem_topIndices_lt {sims : List ℝ} {k i : ℕ} (h : i ∈ topIndices sims k) :
    i < sims.length := by
  unfold topIndices at h
  rw [List.mem_reverse] at h
  exact mem_argsort_lt ((lastSlice_sublist _ k).subset h)

theorem topIndices_pairwise (sims : List ℝ) (k : ℕ) :
    (topIndices sims k).Pairwise (fun i j => argRel sims j i) := by
  unfold topIndices
  rw [List.pairwise_reverse]
  exact (argsort_sorted sims).sublist (lastSlice_sublist _ k)

theorem topIndices_perm_zero (sims : List ℝ) :
    List.Perm (topIndices sims 0) (List.range sims.length) := by
  unfold topIndices
  rw [lastSlice_zero]
  exact (List.reverse_perm _).trans (argsort_perm sims)

/-! ## Lemmas about the result-building loop -/

theorem buildResults_length (docs : List String) (sims : List ℝ) (idxs : List ℕ) :
    (buildResults docs sims idxs).length = idxs.length := by
  simp [buildResults]

theorem buildResults_map_rank (docs : List String) (sims : List ℝ) (idxs : List ℕ) :
    (buildResults docs sims idxs).map SearchResult.rank = List.range' 1 idxs.length := by
  unfold buildResults
  rw [List.map_map]
  have h1 : (SearchResult.rank ∘ fun p : ℕ × ℕ => SearchResult.mk (docs.getD p.2 "")
      (sims.getD p.2 0) (p.1 + 1)) = (fun n => 1 + n) ∘ Prod.fst := by
    funext p
    simp [Nat.add_comm]
  rw [h1, ← List.map_map, List.enum_eq_enumFrom, List.enumFrom_map_fst, List.map_add_range']

theorem buildResults_map_score (docs : List String) (sims : List ℝ) (idxs : List ℕ) :
    (buildResults docs sims idxs).map SearchResult.similarity_score =
      idxs.map (fun i => sims.getD i 0) := by
  unfold buildResults
  rw [List.map_map]
  have h1 : (SearchResult.similarity_score ∘ fun p : ℕ × ℕ =>
      SearchResult.mk (docs.getD p.2 "") (sims.getD p.2 0) (p.1 + 1)) =
      (fun i => sims.getD i 0) ∘ Prod.snd := rfl
  rw [h1, ← List.map_map, List.enum_eq_enumFrom, List.enumFrom_map_snd]

theorem buildResults_map_document (docs : List String) (sims : List ℝ) (idxs : List ℕ) :
    (buildResults docs sims idxs).map SearchResult.document =
      idxs.map (fun i => docs.getD i "") := by
  unfold buildResults
  rw [List.map_map]
  have h1 : (SearchResult.document ∘ fun p : ℕ × ℕ =>
      SearchResult.mk (docs.getD p.2 "") (sims.getD p.2 0) (p.1 + 1)) =
      (fun i => docs.getD i "") ∘ Prod.snd := rfl
  rw [h1, ← List.map_map, List.enum_eq_enumFrom, List.enumFrom_map_snd]

/-! ## Lemmas about states and the search path -/

theorem vocabOfDocs_nil : vocabOfDocs [] = [] := rfl

theorem docs_ne_nil_of_vocab {docs : List String} (hv : vocabOfDocs docs ≠ []) :
    docs ≠ [] := by
  rintro rfl
  exact hv rfl

theorem loadState_eq {docs : List String} (hv : vocabOfDocs docs ≠ []) :
    loadState docs = ⟨docs, some (fitModel docs)⟩ := by
  simp [loadState, add_documents, hv]

theorem search_documents_loadState {docs : List String} (q : String) (k : ℕ)
    (hv : vocabOfDocs docs ≠ []) :
    search_documents (loadState docs) q k =
      Except.ok (buildResults docs ((fitModel docs).similarities q)
        (topIndices ((fitModel docs).similarities q) k)) := by
  rw [loadState_eq hv]
  simp [search_documents, docs_ne_nil_of_vocab hv]

theorem similarities_length (m : FittedModel) (q : String) :
    (m.similarities q).length = m.docTokens.length := by
  simp [FittedModel.similarities]

theorem fitModel_docTokens_length (docs : List String) :
    (fitModel docs).docTokens.length = docs.length := by
  simp [fitModel, analyzeDocs]

/-! ## Numeric lemmas about the TF-IDF weights and cosine similarity -/

theorem FittedModel.df_le_n (m : FittedModel) (t : String) : m.df t ≤ m.n :=
  List.length_filter_le _ _

theorem FittedModel.idf_nonneg (m : FittedModel) (t : String) : 0 ≤ m.idf t := by
  unfold FittedModel.idf
  have hdf : (m.df t : ℝ) ≤ (m.n : ℝ) := Nat.cast_le.2 (m.df_le_n t)
  have hpos : (0 : ℝ) < 1 + (m.df t : ℝ) := by positivity
  have h1 : (1 : ℝ) ≤ (1 + (m.n : ℝ)) / (1 + (m.df t : ℝ)) := by
    rw [le_div_iff₀ hpos]
    linarith
  have h2 := Real.log_nonneg h1
  linarith

theorem FittedModel.weight_nonneg (m : FittedModel) (toks : List String) (t : String) :
    0 ≤ m.weight toks t :=
  mul_nonneg (Nat.cast_nonneg _) (m.idf_nonneg t)

theorem FittedModel.dot_nonneg (m : FittedModel) (xs ys : List String) : 0 ≤ m.dot xs ys := by
  apply List.sum_nonneg
  intro x hx
  simp only [List.mem_map] at hx
  obtain ⟨t, _, rfl⟩ := hx
  exact mul_nonneg (m.weight_nonneg xs t) (m.weight_nonneg ys t)

theorem FittedModel.sqNorm_nonneg (m : FittedModel) (xs : List String) : 0 ≤ m.sqNorm xs := by
  apply List.sum_nonneg
  intro x hx
  simp only [List.mem_map] at hx
  obtain ⟨t, _, rfl⟩ := hx
  exact sq_nonneg _

theorem FittedModel.dot_le_sqrt_mul_sqrt (m : FittedModel) (xs ys : List String) :
    m.dot xs ys ≤ Real.sqrt (m.sqNorm xs) * Real.sqrt (m.sqNorm ys) := by
  have hnd : m.vocab.Nodup := List.nodup_dedup _
  have h1 : m.dot xs ys = ∑ t ∈ m.vocab.toFinset, m.weight xs t * m.weight ys t := by
    rw [FittedModel.dot, ← List.sum_toFinset _ hnd]
  have h2 : m.sqNorm xs = ∑ t ∈ m.vocab.toFinset, m.weight xs t ^ 2 := by
    rw [FittedModel.sqNorm, ← List.sum_toFinset _ hnd]
  have h3 : m.sqNorm ys = ∑ t ∈ m.vocab.toFinset, m.weight ys t ^ 2 := by
    rw [FittedModel.sqNorm, ← List.sum_toFinset _ hnd]
  rw [h1, h2, h3]
  exact Real.sum_mul_le_sqrt_mul_sqrt _ _ _

theorem FittedModel.sim_nonneg (m : FittedModel) (xs ys : List String) : 0 ≤ m.sim xs ys := by
  unfold FittedModel.sim
  split
  · exact le_refl 0
  · exact div_nonneg (m.dot_nonneg xs ys)
      (mul_nonneg (Real.sqrt_nonneg _) (Real.sqrt_nonneg _))

theorem FittedModel.sim_le_one (m : FittedModel) (xs ys : List String) : m.sim xs ys ≤ 1 := by
  unfold FittedModel.sim
  split
  · exact zero_le_one
  · rename_i h
    push_neg at h
    obtain ⟨h1, h2⟩ := h
    have hx : 0 < m.sqNorm xs := lt_of_le_of_ne (m.sqNorm_nonneg xs) (Ne.symm h1)
    have hy : 0 < m.sqNorm ys := lt_of_le_of_ne (m.sqNorm_nonneg ys) (Ne.symm h2)
    have hden : 0 < Real.sqrt (m.sqNorm xs) * Real.sqrt (m.sqNorm ys) :=
      mul_pos (Real.sqrt_pos.2 hx) (Real.sqrt_pos.2 hy)
    rw [div_le_one hden]
    exact m.dot_le_sqrt_mul_sqrt xs ys

theorem FittedModel.sqNorm_eq_zero_of_count (m : FittedModel) (xs : List String)
    (h : ∀ t ∈ m.vocab, xs.count t = 0) : m.sqNorm xs = 0 := by
  unfold FittedModel.sqNorm
  apply List.sum_eq_zero
  intro x hx
  simp only [List.mem_map] at hx
  obtain ⟨t, ht, rfl⟩ := hx
  rw [FittedModel.weight, h t ht]
  norm_num

theorem FittedModel.sim_left_zero (m : FittedModel) (xs ys : List String)
    (h : m.sqNorm xs = 0) : m.sim xs ys = 0 :=
  if_pos (Or.inl h)

theorem FittedModel.sim_right_zero (m : FittedModel) (xs ys : List String)
    (h : m.sqNorm ys = 0) : m.sim xs ys = 0 :=
  if_pos (Or.inr h)

theorem similarities_mem_bounds (m : FittedModel) (q : String) {x : ℝ}
    (hx : x ∈ m.similarities q) : 0 ≤ x ∧ x ≤ 1 := by
  simp only [FittedModel.similarities, List.mem_map] at hx
  obtain ⟨d, _, rfl⟩ := hx
  exact ⟨m.sim_nonneg _ d, m.sim_le_one _ d⟩

theorem similarities_eq_zero_of_oov (m : FittedModel) (q : String)
    (hq : ∀ t ∈ analyze q, t ∉ m.vocab) {x : ℝ} (hx : x ∈ m.similarities q) : x = 0 := by
  simp only [FittedModel.similarities, List.mem_map] at hx
  obtain ⟨d, _, rfl⟩ := hx
  apply m.sim_left_zero
  apply m.sqNorm_eq_zero_of_count
  intro t ht
  rw [List.count_eq_zero]
  intro hmem
  exact hq t hmem ht

theorem getD_eq_zero_of_all_zero {l : List ℝ} (h : ∀ x ∈ l, x = 0) (i : ℕ) :
    l.getD i 0 = 0 := by
  rcases lt_or_ge i l.length with hi | hi
  · rw [List.getD_eq_getElem _ _ hi]
    exact h _ (List.getElem_mem hi)
  · exact List.getD_eq_default _ _ hi

/-- Scores along the output order of the ranking pipeline are non-increasing. -/
theorem buildResults_scores_antitone (docs : List String) (sims : List ℝ) (k : ℕ) :
    ((buildResults docs sims (topIndices sims k)).map
      SearchResult.similarity_score).Pairwise (fun a b => b ≤ a) := by
  rw [buildResults_map_score, List.pairwise_map]
  apply (topIndices_pairwise sims k).imp
  intro i j hji
  rcases hji with h | ⟨h, _⟩
  · exact h.le
  · exact h.le

theorem search_eq_nil_of_docs_nil (st : RAGState) (q : String) (k : ℕ)
    (h : st.documents = []) : search_documents st q k = Except.ok [] := by
  unfold search_documents
  rw [if_pos h]

theorem similarities_getD (m : FittedModel) (q : String) {i : ℕ}
    (hi : i < m.docTokens.length) :
    (m.similarities q).getD i 0 = m.sim (analyze q) (m.docTokens.getD i []) := by
  unfold FittedModel.similarities
  rw [List.getD_eq_getElem _ _ (by simpa using hi), List.getD_eq_getElem _ _ hi,
    List.getElem_map]

theorem fitModel_docTokens_getD (docs : List String) {i : ℕ} (hi : i < docs.length) :
    (fitModel docs).docTokens.getD i [] = analyze (docs.getD i "") := by
  show (docs.map analyze).getD i [] = _
  rw [List.getD_eq_getElem _ _ (by simpa using hi), List.getElem_map,
    List.getD_eq_getElem _ _ hi]

theorem buildResults_document_mem {docs : List String} {sims : List ℝ} {k : ℕ}
    (hlen : sims.length = docs.length) {r : SearchResult}
    (hr : r ∈ buildResults docs sims (topIndices sims k)) : r.document ∈ docs := by
  have hmem := List.mem_map_of_mem SearchResult.document hr
  rw [buildResults_map_document] at hmem
  simp only [List.mem_map] at hmem
  obtain ⟨i, hi, heq⟩ := hmem
  have hilt : i < docs.length := hlen ▸ mem_topIndices_lt hi
  rw [← heq, List.getD_eq_getElem _ _ hilt]
  exact List.getElem_mem hilt

theorem map_getD_range (docs : List String) :
    (List.range docs.length).map (fun i => docs.getD i "") = docs := by
  apply List.ext_getElem (by simp)
  intro i h1 h2
  simp only [List.getElem_map, List.getElem_range]
  exact List.getD_eq_getElem _ _ h2

/-! ## Claim theorems -/

/-- C1: for every non-empty corpus successfully loaded via `add_documents`,
every query and every positive `top_k`, `search_documents` returns exactly
`min(top_k, |C|)` results whose ranks are exactly `1, …, min(top_k, |C|)` in
output order and whose similarity scores are non-increasing along that
order. -/
theorem search_returns_min_topk_ranked (docs : List String) (q : String) (k : ℕ)
    (_hd : docs ≠ []) (hv : vocabOfDocs docs ≠ []) (hk : 0 < k) :
    ∃ res : List SearchResult,
      search_documents (loadState docs) q k = Except.ok res ∧
      res.length = min k docs.length ∧
      res.map SearchResult.rank = List.range' 1 (min k docs.length) ∧
      (res.map SearchResult.similarity_score).Pairwise (fun a b => b ≤ a) := by
  have hlen : ((fitModel docs).similarities q).length = docs.length := by
    rw [similarities_length, fitModel_docTokens_length]
  refine ⟨_, search_documents_loadState q k hv, ?_, ?_, ?_⟩
  · rw [buildResults_length, topIndices_length_pos _ hk.ne', hlen]
  · rw [buildResults_map_rank, topIndices_length_pos _ hk.ne', hlen]
  · exact buildResults_scores_antitone docs _ k

/-- Witness for C1 at a concrete corpus, query and `top_k`. -/
theorem search_returns_min_topk_ranked_witness :
    (["hello world", "goodbye"] : List String) ≠ [] ∧
    vocabOfDocs ["hello world", "goodbye"] ≠ [] ∧ (0 : ℕ) < 5 ∧
    ∃ res : List SearchResult,
      search_documents (loadState ["hello world", "goodbye"]) "hello" 5 = Except.ok res ∧
      res.length = min 5 (["hello world", "goodbye"] : List String).length ∧
      res.map SearchResult.rank =
        List.range' 1 (min 5 (["hello world", "goodbye"] : List String).length) ∧
      (res.map SearchResult.similarity_score).Pairwise (fun a b => b ≤ a) :=
  ⟨by decide, by decide, by decide,
    search_returns_min_topk_ranked _ "hello" _ (by decide) (by decide) (by decide)⟩

/-- C2: with no corpus loaded (empty documents list), `search_documents`
returns an empty sequence and never raises an error, for every query and
`top_k`. -/
theorem search_empty_documents (st : RAGState) (q : String) (k : ℕ)
    (h : st.documents = []) : search_documents st q k = Except.ok [] :=
  search_eq_nil_of_docs_nil st q k h

/-- Witness for C2 on a fresh instance. -/
theorem search_empty_documents_witness :
    initState.documents = [] ∧
    search_documents initState "anything" 7 = Except.ok [] :=
  ⟨rfl, search_empty_documents initState "anything" 7 rfl⟩

/-- C8: every similarity score in the output of `search_documents` lies in
the closed interval [0, 1]. -/
theorem scores_in_unit_interval (docs : List String) (q : String) (k : ℕ)
    (hv : vocabOfDocs docs ≠ []) (_hk : 0 < k) :
    ∃ res : List SearchResult,
      search_documents (loadState docs) q k = Except.ok res ∧
      ∀ r ∈ res, 0 ≤ r.similarity_score ∧ r.similarity_score ≤ 1 := by
  refine ⟨_, search_documents_loadState q k hv, ?_⟩
  intro r hr
  have hmem : r.similarity_score ∈ (buildResults docs ((fitModel docs).similarities q)
      (topIndices ((fitModel docs).similarities q) k)).map SearchResult.similarity_score :=
    List.mem_map_of_mem _ hr
  rw [buildResults_map_score] at hmem
  simp only [List.mem_map] at hmem
  obtain ⟨i, hi, heq⟩ := hmem
  have hilt : i < ((fitModel docs).similarities q).length := mem_topIndices_lt hi
  rw [← heq, List.getD_eq_getElem _ _ hilt]
  exact similarities_mem_bounds _ q (List.getElem_mem hilt)

/-- Witness for C8 at a concrete corpus, query and `top_k`. -/
theorem scores_in_unit_interval_witness :
    vocabOfDocs ["hello world"] ≠ [] ∧ (0 : ℕ) < 2 ∧
    ∃ res : List SearchResult,
      search_documents (loadState ["hello world"]) "hello" 2 = Except.ok res ∧
      ∀ r ∈ res, 0 ≤ r.similarity_score ∧ r.similarity_score ≤ 1 :=
  ⟨by decide, by decide, scores_in_unit_interval _ "hello" 2 (by decide) (by decide)⟩

/-- C9: for a non-empty loaded corpus and positive `top_k`, a query none of
whose terms is in the vocabulary still yields `min(top_k, |C|)` results,
each with similarity score 0 — no empty output and no error. -/
theorem oov_query_zero_scores (docs : List String) (q : String) (k : ℕ)
    (_hd : docs ≠ []) (hv : vocabOfDocs docs ≠ []) (hk : 0 < k)
    (hq : ∀ t ∈ analyze q, t ∉ vocabOfDocs docs) :
    ∃ res : List SearchResult,
      search_documents (loadState docs) q k = Except.ok res ∧
      res.length = min k docs.length ∧
      ∀ r ∈ res, r.similarity_score = 0 := by
  have hlen : ((fitModel docs).similarities q).length = docs.length := by
    rw [similarities_length, fitModel_docTokens_length]
  have hzero : ∀ x ∈ (fitModel docs).similarities q, x = 0 := fun x hx =>
    similarities_eq_zero_of_oov _ q hq hx
  refine ⟨_, search_documents_loadState q k hv, ?_, ?_⟩
  · rw [buildResults_length, topIndices_length_pos _ hk.ne', hlen]
  · intro r hr
    have hmem := List.mem_map_of_mem SearchResult.similarity_score hr
    rw [buildResults_map_score] at hmem
    simp only [List.mem_map] at hmem
    obtain ⟨i, _, heq⟩ := hmem
    rw [← heq]
    exact getD_eq_zero_of_all_zero hzero i

/-- Witness for C9 at a concrete corpus and an out-of-vocabulary query. -/
theorem oov_query_zero_scores_witness :
    (["hello world"] : List String) ≠ [] ∧
    vocabOfDocs ["hello world"] ≠ [] ∧ (0 : ℕ) < 3 ∧
    (∀ t ∈ analyze "zz qq", t ∉ vocabOfDocs ["hello world"]) ∧
    ∃ res : List SearchResult,
      search_documents (loadState ["hello world"]) "zz qq" 3 = Except.ok res ∧
      res.length = min 3 (["hello world"] : List String).length ∧
      ∀ r ∈ res, r.similarity_score = 0 :=
  ⟨by decide, by decide, by decide, by decide,
    oov_query_zero_scores _ "zz qq" 3 (by decide) (by decide) (by decide) (by decide)⟩

/-- C10: calling `search_documents` with `top_k = 0` on a non-empty loaded
corpus returns all `|C|` documents ranked (the slice `[-0:]` selects the
whole index array), not zero results and not an error. -/
theorem topk_zero_returns_all (docs : List String) (q : String)
    (_hd : docs ≠ []) (hv : vocabOfDocs docs ≠ []) :
    ∃ res : List SearchResult,
      search_documents (loadState docs) q 0 = Except.ok res ∧
      res.length = docs.length ∧
      List.Perm (res.map SearchResult.document) docs ∧
      res.map SearchResult.rank = List.range' 1 docs.length := by
  have hlen : ((fitModel docs).similarities q).length = docs.length := by
    rw [similarities_length, fitModel_docTokens_length]
  refine ⟨_, search_documents_loadState q 0 hv, ?_, ?_, ?_⟩
  · rw [buildResults_length, topIndices_length_zero, hlen]
  · rw [buildResults_map_document]
    have hperm := (topIndices_perm_zero ((fitModel docs).similarities q)).map
      (fun i => docs.getD i "")
    rw [hlen, map_getD_range] at hperm
    exact hperm
  · rw [buildResults_map_rank, topIndices_length_zero, hlen]

/-- Witness for C10 at a concrete corpus and query. -/
theorem topk_zero_returns_all_witness :
    (["hello world", "goodbye"] : List String) ≠ [] ∧
    vocabOfDocs ["hello world", "goodbye"] ≠ [] ∧
    ∃ res : List SearchResult,
      search_documents (loadState ["hello world", "goodbye"]) "hello" 0 = Except.ok res ∧
      res.length = (["hello world", "goodbye"] : List String).length ∧
      List.Perm (res.map SearchResult.document) ["hello world", "goodbye"] ∧
      res.map SearchResult.rank =
        List.range' 1 (["hello world", "goodbye"] : List String).length :=
  ⟨by decide, by decide, topk_zero_returns_all _ "hello" (by decide) (by decide)⟩

/-- C5 counterexample: calling `add_documents` with an empty sequence does
NOT succeed — `fit_transform` raises `ValueError` (empty vocabulary). -/
theorem add_documents_empty_error :
    (add_documents initState []).2 =
      Except.error "empty vocabulary; perhaps the documents only contain stop words" := rfl

/-- C5 amended: `add_documents` with an empty sequence raises `ValueError`
(empty vocabulary) out of `fit_transform`; however `self.documents` is
assigned before vectorization, so every subsequent `search_documents` call
on the resulting state returns an empty sequence. -/
theorem add_documents_empty_error_search_empty (q : String) (k : ℕ) :
    (add_documents initState []).2 =
      Except.error "empty vocabulary; perhaps the documents only contain stop words" ∧
    search_documents (add_documents initState []).1 q k = Except.ok [] :=
  ⟨rfl, search_eq_nil_of_docs_nil _ q k rfl⟩

/-- C6 counterexample: a corpus whose only document consists of stop words
(the claim's own example text) makes `add_documents` itself raise an empty
vocabulary `ValueError`, so the claim fails as stated. -/
theorem stopword_corpus_error_counterexample :
    (add_documents initState ["the a of"]).2 =
      Except.error "empty vocabulary; perhaps the documents only contain stop words" := by
  have hv : vocabOfDocs ["the a of"] = [] := by decide
  simp [add_documents, hv]

/-- C6 amended: provided the corpus yields a non-empty vocabulary (some
other document contributes a non-stop-word term), loading succeeds, no
search raises an error, and a document consisting only of stop words has
similarity score 0 to every query. -/
theorem stopword_doc_zero_score (docs : List String) (i : ℕ) (q : String) (k : ℕ)
    (hv : vocabOfDocs docs ≠ []) (hi : i < docs.length)
    (hstop : analyze (docs.getD i "") = []) :
    (add_documents initState docs).2 = Except.ok () ∧
    (∃ res, search_documents (loadState docs) q k = Except.ok res) ∧
    ((fitModel docs).similarities q).getD i 0 = 0 := by
  have hi2 : i < (fitModel docs).docTokens.length := by
    rw [fitModel_docTokens_length]
    exact hi
  refine ⟨by simp [add_documents, hv], ⟨_, search_documents_loadState q k hv⟩, ?_⟩
  rw [similarities_getD _ q hi2, fitModel_docTokens_getD docs hi, hstop]
  apply FittedModel.sim_right_zero
  apply FittedModel.sqNorm_eq_zero_of_count
  intro t _
  exact List.count_nil t

/-- Witness for the amended C6 at a concrete corpus with a stop-word-only
document. -/
theorem stopword_doc_zero_score_witness :
    vocabOfDocs ["hello world", "the"] ≠ [] ∧
    (1 : ℕ) < (["hello world", "the"] : List String).length ∧
    analyze ((["hello world", "the"] : List String).getD 1 "") = [] ∧
    ((add_documents initState ["hello world", "the"]).2 = Except.ok () ∧
      (∃ res, search_documents (loadState ["hello world", "the"]) "hello" 3 =
        Except.ok res) ∧
      ((fitModel ["hello world", "the"]).similarities "hello").getD 1 0 = 0) :=
  ⟨by decide, by decide, by decide,
    stopword_doc_zero_score _ 1 "hello" 3 (by decide) (by decide) (by decide)⟩

/-- Helper for the C7 counterexample: the similarity row computed against
the STALE model fitted from `["hello world"]` for query `"hello"`. -/
theorem sims_stale_hello_world :
    (fitModel ["hello world"]).similarities "hello" =
      [1 / (Real.sqrt 1 * Real.sqrt 2)] := by
  have h1 : (fitModel ["hello world"]).docTokens = [["hello", "world"]] := by decide
  have h2 : (fitModel ["hello world"]).vocab = ["hello", "world"] := by decide
  have hq : analyze "hello" = ["hello"] := by decide
  have hn : (fitModel ["hello world"]).n = 1 := by decide
  have hdfh : (fitModel ["hello world"]).df "hello" = 1 := by decide
  have hdfw : (fitModel ["hello world"]).df "world" = 1 := by decide
  have hnq : (fitModel ["hello world"]).sqNorm ["hello"] = 1 := by
    unfold FittedModel.sqNorm
    rw [h2]
    simp +decide [List.count_cons, List.count_nil, FittedModel.weight, FittedModel.idf]
    norm_num [hn, hdfh, Real.log_one]
  have hnd : (fitModel ["hello world"]).sqNorm ["hello", "world"] = 2 := by
    unfold FittedModel.sqNorm
    rw [h2]
    simp +decide [List.count_cons, List.count_nil, FittedModel.weight, FittedModel.idf]
    norm_num [hn, hdfh, hdfw, Real.log_one]
  have hdot : (fitModel ["hello world"]).dot ["hello"] ["hello", "world"] = 1 := by
    unfold FittedModel.dot
    rw [h2]
    simp +decide [List.count_cons, List.count_nil, FittedModel.weight, FittedModel.idf]
    norm_num [hn, hdfh, Real.log_one]
  unfold FittedModel.similarities
  rw [h1]
  simp only [List.map_cons, List.map_nil, hq]
  unfold FittedModel.sim
  rw [hnq, hnd, hdot]
  norm_num

/-- C7 counterexample: reloading with a corpus whose vocabulary is empty
raises inside `fit_transform` AFTER `self.documents` was reassigned, so the
state keeps the first corpus's fitted model; the subsequent search scores
the new (term-free) document with the old vocabulary and returns a nonzero
similarity — the results are not derived from the second corpus only. -/
theorem reload_stale_model_counterexample :
    (add_documents (add_documents initState ["hello world"]).1 ["the of"]).1 =
      ⟨["the of"], some (fitModel ["hello world"])⟩ ∧
    analyze "the of" = [] ∧
    search_documents (add_documents (add_documents initState ["hello world"]).1
        ["the of"]).1 "hello" 1 =
      Except.ok [⟨"the of", 1 / (Real.sqrt 1 * Real.sqrt 2), 1⟩] ∧
    (1 : ℝ) / (Real.sqrt 1 * Real.sqrt 2) ≠ 0 := by
  have hstate : (add_documents (add_documents initState ["hello world"]).1 ["the of"]).1 =
      ⟨["the of"], some (fitModel ["hello world"])⟩ := by decide
  refine ⟨hstate, by decide, ?_, by positivity⟩
  rw [hstate]
  simp only [search_documents]
  rw [if_neg (by decide : ¬(["the of"] : List String) = [])]
  rw [sims_stale_hello_world]
  simp [topIndices, argsort, lastSlice, List.insertionSort, buildResults]

/-- C7 amended: provided the second load succeeds (non-empty vocabulary),
the state after loading corpus `docs1` then corpus `docs2` equals the state
after loading `docs2` alone — the fitted model is derived from `docs2`
only — and every returned document belongs to `docs2`. -/
theorem reload_replaces_state (docs1 docs2 : List String)
    (hv2 : vocabOfDocs docs2 ≠ []) :
    (add_documents (add_documents initState docs1).1 docs2).1 =
      (add_documents initState docs2).1 ∧
    ∀ q k res,
      search_documents (add_documents (add_documents initState docs1).1 docs2).1 q k =
        Except.ok res → ∀ r ∈ res, r.document ∈ docs2 := by
  have hstate : (add_documents (add_documents initState docs1).1 docs2).1 =
      loadState docs2 := by
    rw [loadState_eq hv2]
    simp [add_documents, hv2]
  constructor
  · rw [hstate]
    rfl
  · intro q k res hres
    rw [hstate, search_documents_loadState q k hv2] at hres
    have hres2 := Except.ok.inj hres
    intro r hr
    rw [← hres2] at hr
    exact buildResults_document_mem
      (by rw [similarities_length, fitModel_docTokens_length]) hr

/-- Witness for the amended C7 at two concrete corpora. -/
theorem reload_replaces_state_witness :
    vocabOfDocs ["cc dd"] ≠ [] ∧
    ((add_documents (add_documents initState ["aa bb"]).1 ["cc dd"]).1 =
      (add_documents initState ["cc dd"]).1 ∧
    ∀ q k res,
      search_documents (add_documents (add_documents initState ["aa bb"]).1 ["cc dd"]).1
          q k = Except.ok res → ∀ r ∈ res, r.document ∈ (["cc dd"] : List String)) :=
  ⟨by decide, reload_replaces_state ["aa bb"] ["cc dd"] (by decide)⟩

/-! ## Helpers for concrete evaluations of the pipeline -/

theorem FittedModel.sim_of_dot_eq_zero (m : FittedModel) (xs ys : List String)
    (h : m.dot xs ys = 0) : m.sim xs ys = 0 := by
  unfold FittedModel.sim
  split
  · rfl
  · rw [h, zero_div]

/-- Concrete evaluation of `argsort` on a three-element similarity row with
`sims[1] = 0 < sims[2] < sims[0]`. -/
theorem argsort_three (S0 S2 : ℝ) (h2 : 0 < S2) (h02 : S2 < S0) :
    argsort [S0, 0, S2] = [1, 2, 0] := by
  have hr12 : argRel [S0, 0, S2] 1 2 := Or.inl h2
  have hr01 : ¬ argRel [S0, 0, S2] 0 1 := by
    intro h
    rcases h with h | ⟨h, _⟩ <;>
      simp only [List.getD_cons_zero, List.getD_cons_succ, List.getD_nil] at h <;> linarith
  have hr02 : ¬ argRel [S0, 0, S2] 0 2 := by
    intro h
    rcases h with h | ⟨h, _⟩ <;>
      simp only [List.getD_cons_zero, List.getD_cons_succ, List.getD_nil] at h <;> linarith
  unfold argsort
  rw [show ([S0, 0, S2] : List ℝ).length = 3 from rfl]
  rw [show List.range 3 = [0, 1, 2] from rfl]
  simp only [List.insertionSort, List.orderedInsert]
  rw [if_pos hr12]
  simp only [List.orderedInsert]
  rw [if_neg hr01, if_neg hr02]

/-- The similarity row of the C3 counterexample: an out-of-vocabulary query
ties every document at score 0. -/
theorem sims_tie_zero :
    (fitModel ["aa bb", "cc dd"]).similarities "ee ff" = [0, 0] := by
  have h1 : (fitModel ["aa bb", "cc dd"]).docTokens = [["aa", "bb"], ["cc", "dd"]] := by
    decide
  have hq0 : (fitModel ["aa bb", "cc dd"]).sqNorm (analyze "ee ff") = 0 := by
    apply FittedModel.sqNorm_eq_zero_of_count
    intro t ht
    have hv : (fitModel ["aa bb", "cc dd"]).vocab = ["aa", "bb", "cc", "dd"] := by decide
    have hq : analyze "ee ff" = ["ee", "ff"] := by decide
    rw [hv] at ht
    rw [hq]
    fin_cases ht <;> decide
  unfold FittedModel.similarities
  rw [h1]
  simp only [List.map_cons, List.map_nil]
  rw [FittedModel.sim_left_zero _ _ _ hq0, FittedModel.sim_left_zero _ _ _ hq0]

/-! ## Concrete TF-IDF values for the demo scenario -/

theorem demo_idf_ai : (fitModel demoDocs).idf "ai" = Real.log (4/3) + 1 := by
  unfold FittedModel.idf
  rw [show (fitModel demoDocs).df "ai" = 2 from by decide,
    show (fitModel demoDocs).n = 3 from by decide]
  norm_num

theorem demo_idf_df1 (t : String) (h : (fitModel demoDocs).df t = 1) :
    (fitModel demoDocs).idf t = Real.log 2 + 1 := by
  unfold FittedModel.idf
  rw [h, show (fitModel demoDocs).n = 3 from by decide]
  norm_num

theorem demo_vocab : (fitModel demoDocs).vocab =
    ["transforming", "healthcare", "improved", "diagnosis", "machine", "learning",
     "predicts", "equipment", "failures", "manufacturing", "ai", "chatbots",
     "revolutionize", "customer", "service"] := by decide

theorem demo_sqNorm_q :
    (fitModel demoDocs).sqNorm (analyze demoQuery) =
      (Real.log (4/3) + 1)^2 + (Real.log 2 + 1)^2 := by
  unfold FittedModel.sqNorm
  rw [demo_vocab, show analyze demoQuery = ["ai", "improving", "healthcare"] from by decide]
  simp +decide [List.count_cons, List.count_nil, FittedModel.weight]
  rw [demo_idf_ai, demo_idf_df1 "healthcare" (by decide)]
  ring

theorem demo_sqNorm_d0 :
    (fitModel demoDocs).sqNorm ["ai", "transforming", "healthcare", "improved", "diagnosis"] =
      (Real.log (4/3) + 1)^2 + 4*(Real.log 2 + 1)^2 := by
  unfold FittedModel.sqNorm
  rw [demo_vocab]
  simp +decide [List.count_cons, List.count_nil, FittedModel.weight]
  rw [demo_idf_ai, demo_idf_df1 "transforming" (by decide),
    demo_idf_df1 "healthcare" (by decide), demo_idf_df1 "improved" (by decide),
    demo_idf_df1 "diagnosis" (by decide)]
  ring

theorem demo_sqNorm_d2 :
    (fitModel demoDocs).sqNorm ["ai", "chatbots", "revolutionize", "customer", "service"] =
      (Real.log (4/3) + 1)^2 + 4*(Real.log 2 + 1)^2 := by
  unfold FittedModel.sqNorm
  rw [demo_vocab]
  simp +decide [List.count_cons, List.count_nil, FittedModel.weight]
  rw [demo_idf_ai, demo_idf_df1 "chatbots" (by decide),
    demo_idf_df1 "revolutionize" (by decide), demo_idf_df1 "customer" (by decide),
    demo_idf_df1 "service" (by decide)]
  ring

theorem demo_dot_q_d0 :
    (fitModel demoDocs).dot (analyze demoQuery)
      ["ai", "transforming", "healthcare", "improved", "diagnosis"] =
      (Real.log (4/3) + 1)^2 + (Real.log 2 + 1)^2 := by
  unfold FittedModel.dot
  rw [demo_vocab, show analyze demoQuery = ["ai", "improving", "healthcare"] from by decide]
  simp +decide [List.count_cons, List.count_nil, FittedModel.weight]
  rw [demo_idf_ai, demo_idf_df1 "healthcare" (by decide)]
  ring

theorem demo_dot_q_d1 :
    (fitModel demoDocs).dot (analyze demoQuery)
      ["machine", "learning", "predicts", "equipment", "failures", "manufacturing"] = 0 := by
  unfold FittedModel.dot
  rw [demo_vocab, show analyze demoQuery = ["ai", "improving", "healthcare"] from by decide]
  simp +decide [List.count_cons, List.count_nil, FittedModel.weight]

theorem demo_dot_q_d2 :
    (fitModel demoDocs).dot (analyze demoQuery)
      ["ai", "chatbots", "revolutionize", "customer", "service"] =
      (Real.log (4/3) + 1)^2 := by
  unfold FittedModel.dot
  rw [demo_vocab, show analyze demoQuery = ["ai", "improving", "healthcare"] from by decide]
  simp +decide [List.count_cons, List.count_nil, FittedModel.weight]
  rw [demo_idf_ai]
  ring

/-- The full similarity row of the demo scenario: with `a = ln(4/3) + 1` (the
IDF of "ai") and `b = ln 2 + 1` (the IDF of every document-frequency-1 term),
the scores are `(a²+b²)/(√(a²+b²)·√(a²+4b²))`, `0`, and
`a²/(√(a²+b²)·√(a²+4b²))`. -/
theorem demo_sims :
    (fitModel demoDocs).similarities demoQuery =
      [((Real.log (4/3) + 1)^2 + (Real.log 2 + 1)^2) /
        (Real.sqrt ((Real.log (4/3) + 1)^2 + (Real.log 2 + 1)^2) *
         Real.sqrt ((Real.log (4/3) + 1)^2 + 4*(Real.log 2 + 1)^2)),
       0,
       (Real.log (4/3) + 1)^2 /
        (Real.sqrt ((Real.log (4/3) + 1)^2 + (Real.log 2 + 1)^2) *
         Real.sqrt ((Real.log (4/3) + 1)^2 + 4*(Real.log 2 + 1)^2))] := by
  have ha : 0 < Real.log (4/3) + 1 := by
    have h := Real.log_nonneg (by norm_num : (1:ℝ) ≤ 4/3)
    linarith
  have hb : 0 < Real.log 2 + 1 := by
    have h := Real.log_nonneg (by norm_num : (1:ℝ) ≤ 2)
    linarith
  have hNq : 0 < (Real.log (4/3) + 1)^2 + (Real.log 2 + 1)^2 :=
    add_pos_of_pos_of_nonneg (pow_pos ha 2) (sq_nonneg _)
  have hNd : 0 < (Real.log (4/3) + 1)^2 + 4*(Real.log 2 + 1)^2 := by nlinarith
  have h1 : (fitModel demoDocs).docTokens =
      [["ai", "transforming", "healthcare", "improved", "diagnosis"],
       ["machine", "learning", "predicts", "equipment", "failures", "manufacturing"],
       ["ai", "chatbots", "revolutionize", "customer", "service"]] := by decide
  have e0 : (fitModel demoDocs).sim (analyze demoQuery)
      ["ai", "transforming", "healthcare", "improved", "diagnosis"] =
      ((Real.log (4/3) + 1)^2 + (Real.log 2 + 1)^2) /
        (Real.sqrt ((Real.log (4/3) + 1)^2 + (Real.log 2 + 1)^2) *
         Real.sqrt ((Real.log (4/3) + 1)^2 + 4*(Real.log 2 + 1)^2)) := by
    unfold FittedModel.sim
    rw [demo_sqNorm_q, demo_sqNorm_d0, demo_dot_q_d0]
    rw [if_neg (by push_neg; exact ⟨ne_of_gt hNq, ne_of_gt hNd⟩)]
  have e1 : (fitModel demoDocs).sim (analyze demoQuery)
      ["machine", "learning", "predicts", "equipment", "failures", "manufacturing"] = 0 :=
    FittedModel.sim_of_dot_eq_zero _ _ _ demo_dot_q_d1
  have e2 : (fitModel demoDocs).sim (analyze demoQuery)
      ["ai", "chatbots", "revolutionize", "customer", "service"] =
      (Real.log (4/3) + 1)^2 /
        (Real.sqrt ((Real.log (4/3) + 1)^2 + (Real.log 2 + 1)^2) *
         Real.sqrt ((Real.log (4/3) + 1)^2 + 4*(Real.log 2 + 1)^2)) := by
    unfold FittedModel.sim
    rw [demo_sqNorm_q, demo_sqNorm_d2, demo_dot_q_d2]
    rw [if_neg (by push_neg; exact ⟨ne_of_gt hNq, ne_of_gt hNd⟩)]
  unfold FittedModel.similarities
  rw [h1]
  simp only [List.map_cons, List.map_nil]
  rw [e0, e1, e2]

/-- C3 counterexample: with the corpus `["aa bb", "cc dd"]` and an
out-of-vocabulary query, both documents tie at similarity 0, and the output
ranks corpus index 1 (`"cc dd"`) first — the lower index does NOT win the
tie, refuting the claim as stated. -/
theorem tie_break_lower_index_counterexample :
    search_documents (loadState ["aa bb", "cc dd"]) "ee ff" 2 =
      Except.ok [⟨"cc dd", 0, 1⟩, ⟨"aa bb", 0, 2⟩] := by
  rw [search_documents_loadState "ee ff" 2 (by decide), sims_tie_zero]
  have hsort : argsort ([0, 0] : List ℝ) = [0, 1] := by
    have hr01 : argRel [0, 0] 0 1 := Or.inr ⟨rfl, by omega⟩
    unfold argsort
    rw [show (([0, 0] : List ℝ)).length = 2 from rfl]
    rw [show List.range 2 = [0, 1] from rfl]
    simp only [List.insertionSort, List.orderedInsert]
    rw [if_pos hr01]
  unfold topIndices
  rw [hsort]
  simp [lastSlice, buildResults, List.enum, List.enumFrom, List.getElem?_cons_zero,
    List.getElem?_cons_succ]

/-- C3 amended: for a TWO-document corpus whose documents score equally
against a query, the output ranks corpus index 1 (the higher index) first
and index 0 second, for every `top_k ≥ 2` — the lower original index does
not win the tie.  (On a two-element array numpy's argsort is an insertion
sort, hence leaves the tied pair in ascending order, and `[::-1]` reverses
it; for larger tied arrays numpy's default quicksort gives no documented
tie order, so nothing is claimed there.) -/
theorem tie_break_higher_index_two_docs (d0 d1 : String) (q : String) (k : ℕ)
    (hv : vocabOfDocs [d0, d1] ≠ [])
    (heq : ((fitModel [d0, d1]).similarities q).getD 0 0 =
      ((fitModel [d0, d1]).similarities q).getD 1 0)
    (hk : 2 ≤ k) :
    search_documents (loadState [d0, d1]) q k =
      Except.ok
        [⟨d1, ((fitModel [d0, d1]).similarities q).getD 1 0, 1⟩,
         ⟨d0, ((fitModel [d0, d1]).similarities q).getD 0 0, 2⟩] := by
  rw [search_documents_loadState q k hv]
  have hsort : argsort ((fitModel [d0, d1]).similarities q) = [0, 1] := by
    have hr01 : argRel ((fitModel [d0, d1]).similarities q) 0 1 :=
      Or.inr ⟨heq, by omega⟩
    unfold argsort
    rw [show ((fitModel [d0, d1]).similarities q).length = 2 from by
      rw [similarities_length, fitModel_docTokens_length]
      rfl]
    rw [show List.range 2 = [0, 1] from rfl]
    simp only [List.insertionSort, List.orderedInsert]
    rw [if_pos hr01]
  unfold topIndices
  rw [hsort]
  rw [show lastSlice [0, 1] k = [0, 1] from by
    unfold lastSlice
    rw [if_neg (by omega : ¬ k = 0)]
    rw [show ([0, 1] : List ℕ).length - k = 0 from by
      simp only [List.length_cons, List.length_nil]
      omega]
    exact List.drop_zero _]
  simp [buildResults, List.enum, List.enumFrom, List.getElem?_cons_zero,
    List.getElem?_cons_succ]

/-- Witness for the amended C3 at a concrete two-document corpus whose
documents tie (both at similarity 0 against an out-of-vocabulary query). -/
theorem tie_break_higher_index_two_docs_witness :
    vocabOfDocs ["aa bb", "cc dd"] ≠ [] ∧
    ((fitModel ["aa bb", "cc dd"]).similarities "ee ff").getD 0 0 =
      ((fitModel ["aa bb", "cc dd"]).similarities "ee ff").getD 1 0 ∧
    (2 : ℕ) ≤ 2 ∧
    search_documents (loadState ["aa bb", "cc dd"]) "ee ff" 2 =
      Except.ok
        [⟨"cc dd", ((fitModel ["aa bb", "cc dd"]).similarities "ee ff").getD 1 0, 1⟩,
         ⟨"aa bb", ((fitModel ["aa bb", "cc dd"]).similarities "ee ff").getD 0 0, 2⟩] :=
  ⟨by decide, by rw [sims_tie_zero]; rfl, by omega,
    tie_break_higher_index_two_docs "aa bb" "cc dd" "ee ff" 2 (by decide)
      (by rw [sims_tie_zero]; rfl) (by omega)⟩

/-- C4: on the demo corpus with query `"How is AI improving healthcare?"`
and `top_k = 2`, the first document is ranked 1 and the third document is
ranked 2 (the first above the third), and the second document's similarity
score is strictly lower than both of the other documents' scores. -/
theorem demo_scenario :
    search_documents (loadState demoDocs) demoQuery 2 =
      Except.ok
        [⟨"AI is transforming healthcare through improved diagnosis.",
          ((fitModel demoDocs).similarities demoQuery).getD 0 0, 1⟩,
         ⟨"AI chatbots revolutionize customer service.",
          ((fitModel demoDocs).similarities demoQuery).getD 2 0, 2⟩] ∧
    ((fitModel demoDocs).similarities demoQuery).getD 1 0 <
      ((fitModel demoDocs).similarities demoQuery).getD 0 0 ∧
    ((fitModel demoDocs).similarities demoQuery).getD 1 0 <
      ((fitModel demoDocs).similarities demoQuery).getD 2 0 := by
  have ha : 0 < Real.log (4/3) + 1 := by
    have h := Real.log_nonneg (by norm_num : (1:ℝ) ≤ 4/3)
    linarith
  have hb : 0 < Real.log 2 + 1 := by
    have h := Real.log_nonneg (by norm_num : (1:ℝ) ≤ 2)
    linarith
  have hNq : 0 < (Real.log (4/3) + 1)^2 + (Real.log 2 + 1)^2 :=
    add_pos_of_pos_of_nonneg (pow_pos ha 2) (sq_nonneg _)
  have hNd : 0 < (Real.log (4/3) + 1)^2 + 4*(Real.log 2 + 1)^2 := by nlinarith
  have hD : 0 < Real.sqrt ((Real.log (4/3) + 1)^2 + (Real.log 2 + 1)^2) *
      Real.sqrt ((Real.log (4/3) + 1)^2 + 4*(Real.log 2 + 1)^2) :=
    mul_pos (Real.sqrt_pos.2 hNq) (Real.sqrt_pos.2 hNd)
  have hS2 : 0 < (Real.log (4/3) + 1)^2 /
      (Real.sqrt ((Real.log (4/3) + 1)^2 + (Real.log 2 + 1)^2) *
       Real.sqrt ((Real.log (4/3) + 1)^2 + 4*(Real.log 2 + 1)^2)) :=
    div_pos (pow_pos ha 2) hD
  have hS02 : (Real.log (4/3) + 1)^2 /
      (Real.sqrt ((Real.log (4/3) + 1)^2 + (Real.log 2 + 1)^2) *
       Real.sqrt ((Real.log (4/3) + 1)^2 + 4*(Real.log 2 + 1)^2)) <
      ((Real.log (4/3) + 1)^2 + (Real.log 2 + 1)^2) /
      (Real.sqrt ((Real.log (4/3) + 1)^2 + (Real.log 2 + 1)^2) *
       Real.sqrt ((Real.log (4/3) + 1)^2 + 4*(Real.log 2 + 1)^2)) := by
    apply div_lt_div_of_pos_right _ hD
    nlinarith
  constructor
  · rw [search_documents_loadState demoQuery 2 (by decide), demo_sims]
    unfold topIndices
    rw [argsort_three _ _ hS2 hS02]
    simp [lastSlice, buildResults, List.enum, List.enumFrom,
      List.getElem?_cons_zero, List.getElem?_cons_succ,
      List.getD_cons_zero, List.getD_cons_succ]
    exact ⟨rfl, rfl⟩
  · rw [demo_sims]
    norm_num
    exact ⟨div_pos hNq hD, hS2⟩

end RAG
